import Mathlib

/-!
Verification development for the marketplace dashboard frontend.

Shallow embedding of the client-side logic of:
  - the Renewal page (src/app/dashboard/renew/page.tsx),
  - the Bulk Upload modal,
  - the Import Session modal,
  - the image-proxy route (src/app/api/image-proxy/route.ts).

Times are modelled as milliseconds since the epoch (Int), matching the
JavaScript Date value.  Browser localStorage is modelled as an explicit
record of the keys this code touches.  JavaScript falsy-coalescing
(x || y) on numbers and strings is modelled explicitly where the source
uses it.
-/

namespace FbMarketplace

/-- 24 hours in milliseconds, the activity-log retention window. -/
def h24ms : Int := 24 * 60 * 60 * 1000

/-- Account, as fetched for the Renewal page (id, email). -/
structure Account where
  id : Int
  email : String
deriving Repr, DecidableEq

/-- FacebookAccount, as fetched by the Bulk Upload modal. -/
structure FacebookAccount where
  id : Int
  email : String
  session_exists : Bool
deriving Repr, DecidableEq

/-- RenewalResult entry of the Renewal page.  `renewed_count` is an
optional number so that a missing field can be distinguished: the source
reads it with the falsy-coalescing pattern `renewed_count || 0`.
`timestamp` is optional, as in the TS interface (`timestamp?: Date`). -/
structure RenewalResult where
  account_id : Int
  email : String
  renewed_count : Option Nat
  available_count : Int
  success : Bool
  message : String
  condition_met : String
  timestamp : Option Int
deriving Repr, DecidableEq

/-- A renewal-log entry as persisted to localStorage: the save effect
serializes each entry with a (string) ISO timestamp; here the timestamp
is kept as the epoch-millisecond value that ISO string denotes. -/
structure StoredLog where
  account_id : Int
  email : String
  renewed_count : Option Nat
  available_count : Int
  success : Bool
  message : String
  condition_met : String
  timestamp : Int
deriving Repr, DecidableEq

/-- The save effect's per-entry serialization `{...log, timestamp: iso}`. -/
def toStored (t : Int) (r : RenewalResult) : StoredLog :=
  { account_id := r.account_id
    email := r.email
    renewed_count := r.renewed_count
    available_count := r.available_count
    success := r.success
    message := r.message
    condition_met := r.condition_met
    timestamp := t }

/-- The load effect's per-entry conversion
`{...log, timestamp: new Date(log.timestamp)}`. -/
def toResult (l : StoredLog) : RenewalResult :=
  { account_id := l.account_id
    email := l.email
    renewed_count := l.renewed_count
    available_count := l.available_count
    success := l.success
    message := l.message
    condition_met := l.condition_met
    timestamp := some l.timestamp }

/-- Value held under the 'renewalActivityLogs' localStorage key: either a
JSON array of entries, or bytes on which the load effect's try-block
throws (failed parse / not an array). -/
inductive StoredVal where
  | valid : List StoredLog → StoredVal
  | corrupt : StoredVal
deriving Repr, DecidableEq

/-- The localStorage keys the Renewal page touches. -/
structure RenewStorage where
  activeRenewalJobId : Option String
  renewalActivityLogs : Option StoredVal
deriving Repr, DecidableEq

/-- React state of the Renewal page component. -/
structure RenewPageState where
  selectedAccounts : List Int
  renewalCount : Int
  loading : Bool
  results : List RenewalResult
  totalRenewed : Nat
  activeRenewalJobId : Option String
deriving Repr, DecidableEq

/-- Shape of a renewListings response body (`total_renewed` optional). -/
structure RenewalResponse where
  results : List RenewalResult
  total_renewed : Option Nat
deriving Repr, DecidableEq

/-- The reduce in handleRenewal / the load effect:
`results.reduce((sum, r) => sum + (r.renewed_count || 0), 0)`. -/
def sumRenewed (rs : List RenewalResult) : Nat :=
  rs.foldl (fun sum r => sum + r.renewed_count.getD 0) 0

/-- handleRenewal's `calculatedTotal`:
`response.data.total_renewed || response.data.results.reduce(...)`.
A JS number is falsy exactly when it is 0 (or NaN), so a present-but-zero
`total_renewed` also falls through to the reduce. -/
def calculatedTotal (resp : RenewalResponse) : Nat :=
  match resp.total_renewed with
  | some t => if t = 0 then sumRenewed resp.results else t
  | none => sumRenewed resp.results

/-- selectAll on the Renewal page. -/
def selectAll (accounts : List Account) (selectedAccounts : List Int) :
    List Int :=
  if selectedAccounts.length = accounts.length then []
  else accounts.map (fun acc => acc.id)

/-- handleSelectAllAccounts on the Bulk Upload modal. -/
def handleSelectAllAccounts (accounts : List FacebookAccount)
    (selectedAccounts : List Int) : List Int :=
  if selectedAccounts.length = accounts.length then []
  else accounts.map (fun acc => acc.id)

/-- Observable outcome of one handleRenewal invocation: the resulting
component state and localStorage, whether the network call was issued,
and any blocking alert messages shown. -/
structure RenewOutcome where
  state : RenewPageState
  storage : RenewStorage
  networkCalled : Bool
  alerts : List String
deriving Repr, DecidableEq

/-- resetRenewalState: clears loading, the in-state job id, and removes
the 'activeRenewalJobId' localStorage key. -/
def resetRenewalState (s : RenewPageState) (st : RenewStorage) :
    RenewPageState × RenewStorage :=
  ({ s with loading := false, activeRenewalJobId := none },
   { st with activeRenewalJobId := none })

/-- handleRenewal.  `resp` is the settled renewListings call: `.ok` with
the response body, or `.error msg` with the backend-provided error string
("" models an error object carrying no `response.data.error`, which the
catch replaces by the generic fallback via `||`).  `now` is the Date at
which the success path timestamps the results, `jobId` the generated
unique job identifier. -/
def handleRenewal (s : RenewPageState) (st : RenewStorage) (jobId : String)
    (now : Int) (resp : Except String RenewalResponse) : RenewOutcome :=
  if s.selectedAccounts.length = 0 then
    { state := s, storage := st, networkCalled := false
      alerts := ["Please select at least one account"] }
  else if s.renewalCount < 1 ∨ s.renewalCount > 20 then
    { state := s, storage := st, networkCalled := false
      alerts := ["Renewal count must be between 1 and 20 (Facebook limit)"] }
  else
    let s1 := { s with loading := true, results := [], totalRenewed := 0,
                       activeRenewalJobId := some jobId }
    let st1 := { st with activeRenewalJobId := some jobId }
    match resp with
    | .ok data =>
        let resultsWithTimestamp :=
          data.results.map (fun result => { result with timestamp := some now })
        let s2 := { s1 with results := resultsWithTimestamp,
                            totalRenewed := calculatedTotal data }
        let reset := resetRenewalState s2 st1
        { state := { reset.1 with loading := false }, storage := reset.2,
          networkCalled := true, alerts := [] }
    | .error msg =>
        let errorMessage :=
          if msg = "" then "Failed to renew listings. Please try again."
          else msg
        let reset := resetRenewalState s1 st1
        { state := { reset.1 with loading := false }, storage := reset.2,
          networkCalled := true, alerts := [errorMessage] }

/-- The mount-time recovery effect: when an active job id is present it
always clears the marker (state and storage) and the loading flag, in
each of its three branches (results present, stale marker, caught
error). -/
def checkRenewalStatus (s : RenewPageState) (st : RenewStorage) :
    RenewPageState × RenewStorage :=
  match s.activeRenewalJobId with
  | none => (s, st)
  | some _ =>
      if s.results.length > 0 then
        ({ s with activeRenewalJobId := none, loading := false },
         { st with activeRenewalJobId := none })
      else
        ({ s with activeRenewalJobId := none, loading := false },
         { st with activeRenewalJobId := none })

/-- The filter of the load effect: keep entries whose timestamp is
strictly after `now - 24h`. -/
def recentFilter (now : Int) (logs : List StoredLog) : List StoredLog :=
  logs.filter (fun log => now - h24ms < log.timestamp)

/-- The load-activity-logs effect.  Absent key: no-op.  Corrupt value
(the try-block throws): the key is removed and the state untouched.
Valid value: timestamps are turned back into dates, entries older than
24 hours are dropped, and the total is recomputed. -/
def loadActivityNow (s : RenewPageState) (st : RenewStorage) (now : Int) :
    RenewPageState × RenewStorage :=
  match st.renewalActivityLogs with
  | none => (s, st)
  | some .corrupt => (s, { st with renewalActivityLogs := none })
  | some (.valid parsedLogs) =>
      let recentLogs := recentFilter now parsedLogs
      ({ s with results := recentLogs.map toResult,
                totalRenewed :=
                  recentLogs.foldl
                    (fun sum result => sum + result.renewed_count.getD 0) 0 },
       st)

/-- The save-activity-logs effect: when the result list is non-empty,
serialize every entry with a fresh ISO timestamp (the current time) and
store the array; otherwise do nothing. -/
def saveActivityNow (s : RenewPageState) (st : RenewStorage) (now : Int) :
    RenewStorage :=
  if s.results.length > 0 then
    { st with
      renewalActivityLogs := some (.valid (s.results.map (toStored now))) }
  else st

/-- clearActivityLogs: wipes results, selection and total, removes the
'renewalActivityLogs' key, and runs resetRenewalState. -/
def clearActivityLogs (s : RenewPageState) (st : RenewStorage) :
    RenewPageState × RenewStorage :=
  let s1 := { s with results := [], selectedAccounts := [],
                     totalRenewed := 0 }
  let st1 := { st with renewalActivityLogs := none }
  resetRenewalState s1 st1

/-- The invariant claimed for the 'renewalActivityLogs' key: whenever it
exists, it holds a (parseable) non-empty array. -/
def logsKeyInv (st : RenewStorage) : Bool :=
  match st.renewalActivityLogs with
  | none => true
  | some (.valid logs) => !logs.isEmpty
  | some .corrupt => false

/-- Upstream response seen by the image proxy's fetch. -/
structure UpstreamResponse where
  status : Nat
  contentType : Option String
  body : List Nat
deriving Repr, DecidableEq

/-- Result of the proxy's fetch: a settled response or a thrown
network-level exception. -/
inductive FetchOutcome where
  | ok : UpstreamResponse → FetchOutcome
  | exn : FetchOutcome
deriving Repr, DecidableEq

/-- Body of the proxy's own response: plain text or relayed bytes. -/
inductive ProxyBody where
  | text : String → ProxyBody
  | bytes : List Nat → ProxyBody
deriving Repr, DecidableEq

/-- Response produced by the image-proxy route. -/
structure ProxyResponse where
  status : Nat
  body : ProxyBody
  contentType : Option String
deriving Repr, DecidableEq

/-- WHATWG `Response.ok`: status in the inclusive range 200..299. -/
def responseOk (r : UpstreamResponse) : Bool :=
  200 ≤ r.status && r.status ≤ 299

/-- The image-proxy GET handler.  `url` is `searchParams.get("url")`
(`none` when the parameter is absent); `!imageUrl` is true for both the
absent and the empty-string value. -/
def imageProxyGET (url : Option String) (fetched : FetchOutcome) :
    ProxyResponse :=
  match url with
  | none => { status := 400, body := .text "Missing image URL",
              contentType := none }
  | some imageUrl =>
    if imageUrl = "" then
      { status := 400, body := .text "Missing image URL",
        contentType := none }
    else
      match fetched with
      | .exn => { status := 500, body := .text "Failed to load image",
                  contentType := none }
      | .ok response =>
          if !responseOk response then
            { status := response.status, body := .text "Failed to fetch image",
              contentType := none }
          else
            { status := 200, body := .bytes response.body,
              contentType := some (response.contentType.getD "image/jpeg") }

/-- stats object of a bulk-upload response. -/
structure UploadStats where
  success_count : Nat
  error_count : Nat
  num_posts : Nat
  num_accounts : Nat
deriving Repr, DecidableEq

/-- Row-level error of a bulk-upload response. -/
structure UploadError where
  row : Nat
  error : String
deriving Repr, DecidableEq

/-- Body of a successful bulk-upload response. -/
structure UploadData where
  message : String
  stats : Option UploadStats
  errors : Option (List UploadError)
  additional_errors : Option Nat
deriving Repr, DecidableEq

/-- uploadResult state of the Bulk Upload modal. -/
structure UploadResult where
  success : Bool
  message : String
  stats : Option UploadStats
  errors : Option (List UploadError)
  additional_errors : Option Nat
deriving Repr, DecidableEq

/-- React state of the Bulk Upload modal (files identified by name). -/
structure BulkState where
  accounts : List FacebookAccount
  selectedAccounts : List Int
  txtFile : Option String
  imageFiles : List String
  loading : Bool
  uploadResult : Option UploadResult
deriving Repr, DecidableEq

/-- Observable effects of one Bulk Upload submit: toasts (type, message),
whether the success callback ran, the scheduled modal-close delay, and
whether the network call was issued. -/
structure BulkEffects where
  toasts : List (String × String)
  onSuccessCalled : Bool
  closeDelayMs : Option Nat
  networkCalled : Bool
deriving Repr, DecidableEq

/-- handleSubmit of the Bulk Upload modal.  `resp` is the settled upload
call: `.ok` with the parsed body, or `.error msg` where msg is the thrown
message (`data.error || "Upload failed"` for a non-ok response, or the
exception message; "" models a message-less exception, replaced by the
generic fallback via `||`). -/
def bulkHandleSubmit (s : BulkState) (resp : Except String UploadData) :
    BulkState × BulkEffects :=
  match s.txtFile with
  | none =>
      (s, { toasts := [("error", "Please select a TXT file")],
            onSuccessCalled := false, closeDelayMs := none,
            networkCalled := false })
  | some _ =>
    if s.selectedAccounts.length = 0 then
      (s, { toasts := [("error", "Please select at least one account")],
            onSuccessCalled := false, closeDelayMs := none,
            networkCalled := false })
    else
      let s1 := { s with loading := true, uploadResult := none }
      match resp with
      | .ok data =>
          ({ s1 with
               uploadResult := some
                 { success := true, message := data.message,
                   stats := data.stats, errors := data.errors,
                   additional_errors := data.additional_errors },
               txtFile := none, imageFiles := [], selectedAccounts := [],
               loading := false },
           { toasts := [("success", data.message)], onSuccessCalled := true,
             closeDelayMs := some 2000, networkCalled := true })
      | .error msg =>
          let errorMessage :=
            if msg = "" then "Failed to upload TXT file" else msg
          ({ s1 with
               uploadResult := some
                 { success := false, message := errorMessage, stats := none,
                   errors := none, additional_errors := none },
               loading := false },
           { toasts := [("error", errorMessage)], onSuccessCalled := false,
             closeDelayMs := none, networkCalled := true })

/-- JSON values, as produced by JSON.parse (numbers kept as their raw
token, since only parse success/failure matters to this code). -/
inductive Json where
  | null : Json
  | bool : Bool → Json
  | num : String → Json
  | str : String → Json
  | arr : List Json → Json
  | obj : List (String × Json) → Json
deriving Repr

/-- Skip JSON insignificant whitespace. -/
def skipWs : List Char → List Char
  | c :: cs =>
      if c = ' ' ∨ c = '\t' ∨ c = '\n' ∨ c = '\r' then skipWs cs else c :: cs
  | [] => []

/-- Single-character JSON string escapes. -/
def escChar : Char → Option Char
  | '"' => some '"'
  | '\\' => some '\\'
  | '/' => some '/'
  | 'b' => some (Char.ofNat 8)
  | 'f' => some (Char.ofNat 12)
  | 'n' => some '\n'
  | 'r' => some '\r'
  | 't' => some '\t'
  | _ => none

/-- Hexadecimal digit value. -/
def hexVal (c : Char) : Option Nat :=
  if '0' ≤ c ∧ c ≤ '9' then some (c.toNat - '0'.toNat)
  else if 'a' ≤ c ∧ c ≤ 'f' then some (c.toNat - 'a'.toNat + 10)
  else if 'A' ≤ c ∧ c ≤ 'F' then some (c.toNat - 'A'.toNat + 10)
  else none

/-- Parse the remainder of a JSON string literal (after the opening
quote); `acc` holds the decoded characters in reverse. -/
def parseStrRest : List Char → List Char → Option (String × List Char)
  | acc, '"' :: rest => some (String.mk acc.reverse, rest)
  | acc, '\\' :: 'u' :: h1 :: h2 :: h3 :: h4 :: rest =>
      match hexVal h1, hexVal h2, hexVal h3, hexVal h4 with
      | some a, some b, some c, some d =>
          parseStrRest
            (Char.ofNat (((a * 16 + b) * 16 + c) * 16 + d) :: acc) rest
      | _, _, _, _ => none
  | acc, '\\' :: e :: rest =>
      match escChar e with
      | some c => parseStrRest (c :: acc) rest
      | none => none
  | acc, c :: rest =>
      if c.toNat < 32 then none else parseStrRest (c :: acc) rest
  | _, [] => none

/-- Take a maximal run of decimal digits. -/
def takeDigits : List Char → List Char × List Char
  | c :: cs =>
      if c.isDigit then
        let p := takeDigits cs
        (c :: p.1, p.2)
      else ([], c :: cs)
  | [] => ([], [])

/-- Integer part of a JSON number: "0", or a nonzero digit run. -/
def parseIntPart : List Char → Option (List Char)
  | '0' :: rest => some rest
  | c :: rest =>
      if c.isDigit then some (takeDigits rest).2 else none
  | [] => none

/-- Optional fraction part of a JSON number. -/
def parseFracPart : List Char → Option (List Char)
  | '.' :: rest =>
      let p := takeDigits rest
      if p.1 = [] then none else some p.2
  | cs => some cs

/-- Optional exponent part of a JSON number. -/
def parseExpPart : List Char → Option (List Char)
  | c :: rest =>
      if c = 'e' ∨ c = 'E' then
        let rest2 :=
          match rest with
          | s :: r2 => if s = '+' ∨ s = '-' then r2 else s :: r2
          | [] => []
        let p := takeDigits rest2
        if p.1 = [] then none else some p.2
      else some (c :: rest)
  | [] => some []

/-- Parse a JSON number token, keeping its raw spelling. -/
def parseNumber (cs : List Char) : Option (Json × List Char) :=
  let cs1 := match cs with
    | '-' :: rest => rest
    | _ => cs
  match parseIntPart cs1 with
  | none => none
  | some r1 =>
      match parseFracPart r1 with
      | none => none
      | some r2 =>
          match parseExpPart r2 with
          | none => none
          | some r3 =>
              some (.num (String.mk (cs.take (cs.length - r3.length))), r3)

mutual

/-- Parse one JSON value (fuelled; fuel bounds the recursion depth). -/
def parseValue : Nat → List Char → Option (Json × List Char)
  | 0, _ => none
  | Nat.succ fuel, cs =>
    match skipWs cs with
    | 'n' :: 'u' :: 'l' :: 'l' :: rest => some (.null, rest)
    | 't' :: 'r' :: 'u' :: 'e' :: rest => some (.bool true, rest)
    | 'f' :: 'a' :: 'l' :: 's' :: 'e' :: rest => some (.bool false, rest)
    | '"' :: rest =>
        match parseStrRest [] rest with
        | some (s, r) => some (.str s, r)
        | none => none
    | '[' :: rest =>
        match skipWs rest with
        | ']' :: r2 => some (.arr [], r2)
        | r1 =>
            match parseElems fuel r1 with
            | some (vs, r2) => some (.arr vs, r2)
            | none => none
    | '\x7b' :: rest =>
        match skipWs rest with
        | '\x7d' :: r2 => some (.obj [], r2)
        | r1 =>
            match parseMembers fuel r1 with
            | some (ms, r2) => some (.obj ms, r2)
            | none => none
    | rest => parseNumber rest

/-- Parse a comma-separated list of array elements up to ']'. -/
def parseElems : Nat → List Char → Option (List Json × List Char)
  | 0, _ => none
  | Nat.succ fuel, cs =>
    match parseValue fuel cs with
    | none => none
    | some (v, rest) =>
      match skipWs rest with
      | ',' :: r2 =>
          match parseElems fuel r2 with
          | some (vs, r3) => some (v :: vs, r3)
          | none => none
      | ']' :: r2 => some ([v], r2)
      | _ => none

/-- Parse a comma-separated list of object members up to the closing
brace. -/
def parseMembers : Nat → List Char → Option (List (String × Json) × List Char)
  | 0, _ => none
  | Nat.succ fuel, cs =>
    match skipWs cs with
    | '"' :: rest =>
      match parseStrRest [] rest with
      | none => none
      | some (key, r1) =>
        match skipWs r1 with
        | ':' :: r2 =>
          match parseValue fuel r2 with
          | none => none
          | some (v, r3) =>
            match skipWs r3 with
            | ',' :: r4 =>
                match parseMembers fuel r4 with
                | some (ms, r5) => some ((key, v) :: ms, r5)
                | none => none
            | '\x7d' :: r4 => some ([(key, v)], r4)
            | _ => none
        | _ => none
    | _ => none

end

/-- JSON.parse: parse one value; nothing but whitespace may remain. -/
def parseJson (s : String) : Option Json :=
  let cs := s.toList
  match parseValue (2 * cs.length + 2) cs with
  | some (v, rest) => if skipWs rest = [] then some v else none
  | none => none

/-- React state of the Import Session modal (the fields the claims
touch). -/
structure ImportState where
  sessionData : String
  filename : String
  loading : Bool
  error : String
  success : Bool
deriving Repr, DecidableEq

/-- details object of a successful import-session response. -/
structure ImportDetails where
  filename : String
  format : String
  converted : Bool
  cookies_count : Nat
  facebook_user_id : String
  email : String
  account_created : Bool
  account_id : Int
deriving Repr, DecidableEq

/-- JS whitespace test used by String.prototype.trim (the characters
relevant here). -/
def isJsWs (c : Char) : Bool :=
  c = ' ' ∨ c = '\t' ∨ c = '\n' ∨ c = '\r' ∨ c = '\x0b' ∨ c = '\x0c'

/-- `!s.trim()`: the string holds nothing but whitespace. -/
def isBlank (s : String) : Bool :=
  s.toList.all isJsWs

/-- The session textarea's onChange handler: store the value; clear the
error when the value is blank or parses as JSON, set the inline error
otherwise. -/
def sessionTextareaOnChange (value : String) (s : ImportState) :
    ImportState :=
  if isBlank value then { s with sessionData := value, error := "" }
  else
    match parseJson value with
    | some _ => { s with sessionData := value, error := "" }
    | none =>
        { s with sessionData := value,
                 error := "Invalid JSON format. Please check your pasted data." }

/-- The submit control's disabled condition:
`loading || !sessionData.trim() || !filename.trim()`. -/
def importSubmitDisabled (s : ImportState) : Bool :=
  s.loading || isBlank s.sessionData || isBlank s.filename

/-- handleSubmit of the Import Session modal.  Returns the new state and
whether the import network call was issued.  `resp` is the settled call
(consulted only when it is issued); "" in `.error` models an error body
carrying no `response.data.error`, replaced by the generic fallback
via `||`. -/
def importHandleSubmit (s : ImportState)
    (resp : Except String ImportDetails) : ImportState × Bool :=
  let s0 := { s with error := "", success := false }
  if isBlank s0.sessionData then
    ({ s0 with error := "Please provide session data" }, false)
  else if isBlank s0.filename then
    ({ s0 with error := "Please provide a filename" }, false)
  else
    let s1 := { s0 with loading := true }
    match parseJson s1.sessionData with
    | none =>
        ({ s1 with
             error := "Invalid JSON format. Please paste valid JSON data from your browser session export.",
             loading := false },
         false)
    | some _ =>
        match resp with
        | .ok _ => ({ s1 with success := true, loading := false }, true)
        | .error msg =>
            let errorMsg :=
              if msg = "" then "Failed to import session" else msg
            ({ s1 with error := errorMsg, loading := false }, true)

/-! ## Helper lemmas -/

lemma foldl_add_map {α : Type} (f : α → Nat) (l : List α) (n : Nat) :
    l.foldl (fun sum r => sum + f r) n = n + (l.map f).sum := by
  induction l generalizing n with
  | nil => simp
  | cons a t ih => simp only [List.foldl_cons, List.map_cons, List.sum_cons, ih]; omega

lemma toResult_inj {a b : StoredLog} (h : toResult a = toResult b) :
    a = b := by
  cases a; cases b
  simp only [toResult, RenewalResult.mk.injEq, Option.some.injEq] at h
  simp only [StoredLog.mk.injEq]
  exact h

lemma toggle_twice_iff (full sel : List Int) (n : Nat)
    (hfull : full.length = n) :
    (if (if sel.length = n then ([] : List Int) else full).length = n
       then ([] : List Int) else full) = sel
      ↔ sel = [] ∨ sel = full := by
  by_cases h : sel.length = n
  · rw [if_pos h]
    by_cases h0 : n = 0
    · have hsel : sel = [] := List.eq_nil_of_length_eq_zero (by omega)
      subst hsel
      simp [h0]
    · rw [if_neg (by simp; omega)]
      constructor
      · intro he; right; exact he.symm
      · rintro (rfl | rfl)
        · exact absurd (by simpa using h.symm) h0
        · rfl
  · rw [if_neg h, if_pos hfull]
    constructor
    · intro he; left; exact he.symm
    · rintro (rfl | rfl)
      · rfl
      · exact absurd hfull h

/-! ## Claim C4: double toggle of select-all -/

/-- Concrete accounts list used in the C4 counterexample. -/
def c4accounts : List Account :=
  [{ id := 1, email := "a@x.com" }, { id := 2, email := "b@x.com" }]

/-- C4 counterexample: with two loaded accounts and the partial selection
[2], applying selectAll twice yields the empty selection, not the
original set, refuting the claim that a double toggle always returns the
starting selection. -/
theorem claim_C4_counterexample :
    selectAll c4accounts (selectAll c4accounts [2]) ≠ [2] := by decide

/-- C4 (amended): toggling the select-all action twice (selectAll on the
Renewal page, handleSelectAllAccounts on the Bulk Upload modal) returns
the original selection exactly when that selection is empty or is the
full account-id list; any other starting selection ends at one of those
two instead. -/
theorem claim_C4_toggle_twice (accounts : List Account)
    (fbAccounts : List FacebookAccount) (sel fbSel : List Int) :
    (selectAll accounts (selectAll accounts sel) = sel
       ↔ sel = [] ∨ sel = accounts.map (fun acc => acc.id)) ∧
    (handleSelectAllAccounts fbAccounts
        (handleSelectAllAccounts fbAccounts fbSel) = fbSel
       ↔ fbSel = [] ∨ fbSel = fbAccounts.map (fun acc => acc.id)) := by
  constructor
  · unfold selectAll
    exact toggle_twice_iff _ sel accounts.length (List.length_map _ _)
  · unfold handleSelectAllAccounts
    exact toggle_twice_iff _ fbSel fbAccounts.length (List.length_map _ _)

/-! ## Claim C3: total renewed from the response -/

/-- Concrete response whose aggregate field is present but zero while a
per-account count is nonzero. -/
def c3resp : RenewalResponse :=
  { results := [{ account_id := 1, email := "a@x.com",
                  renewed_count := some 5, available_count := 0,
                  success := true, message := "", condition_met := "",
                  timestamp := none }],
    total_renewed := some 0 }

/-- Scenario response of C3: three accounts with renewed_count 5, 0, 3
and no total_renewed field. -/
def c3scenario : RenewalResponse :=
  { results :=
      [{ account_id := 1, email := "a@x.com", renewed_count := some 5,
         available_count := 0, success := true, message := "",
         condition_met := "", timestamp := none },
       { account_id := 2, email := "b@x.com", renewed_count := some 0,
         available_count := 0, success := true, message := "",
         condition_met := "", timestamp := none },
       { account_id := 3, email := "c@x.com", renewed_count := some 3,
         available_count := 0, success := true, message := "",
         condition_met := "", timestamp := none }],
    total_renewed := none }

/-- Response with a nonzero aggregate field, used by the C3 witness. -/
def c3wresp : RenewalResponse :=
  { results := [{ account_id := 1, email := "a@x.com",
                  renewed_count := some 5, available_count := 0,
                  success := true, message := "", condition_met := "",
                  timestamp := none }],
    total_renewed := some 7 }

/-- C3 counterexample: a response whose total_renewed field is present
with value 0 does not yield that value as the displayed total — the
JS falsy-coalescing total_renewed || sum falls through to the
per-account sum (5 here), refuting "equals total_renewed whenever that
field is present". -/
theorem claim_C3_counterexample :
    c3resp.total_renewed = some 0 ∧ calculatedTotal c3resp ≠ 0 := by decide

/-- C3 (amended): the displayed total equals the response's
total_renewed field whenever that field is present and nonzero;
when the field is absent or present with value 0 the total is the sum of
the per-account renewed_count values (missing counted as 0); in
particular the 3-account scenario with counts 5, 0, 3 and no
total_renewed yields 8. -/
theorem claim_C3_total (resp : RenewalResponse) :
    (∀ t, resp.total_renewed = some t → t ≠ 0 → calculatedTotal resp = t) ∧
    ((resp.total_renewed = none ∨ resp.total_renewed = some 0) →
       calculatedTotal resp = sumRenewed resp.results) ∧
    calculatedTotal c3scenario = 8 := by
  refine ⟨?_, ?_, by decide⟩
  · intro t ht hne
    simp [calculatedTotal, ht, hne]
  · rintro (h | h) <;> simp [calculatedTotal, h]

/-- C3 witness: the amended theorem applied at concrete responses. -/
theorem claim_C3_total_witness :
    calculatedTotal c3wresp = 7 ∧
    calculatedTotal c3resp = sumRenewed c3resp.results :=
  ⟨(claim_C3_total c3wresp).1 7 rfl (by decide),
   (claim_C3_total c3resp).2.1 (Or.inr rfl)⟩

/-! ## Claim C1: every termination path clears marker and loading -/

/-- C1: any termination path of a renewal invocation — handleRenewal's
success path, its error path, and the load-time recovery check that runs
when a stored job marker is present — leaves the active-job marker
cleared in component state, the 'activeRenewalJobId' localStorage key
removed, and the loading flag false. -/
theorem claim_C1_termination_clears (s : RenewPageState) (st : RenewStorage)
    (jobId : String) (now : Int) (resp : Except String RenewalResponse)
    (s2 : RenewPageState) (st2 : RenewStorage)
    (hsel : s.selectedAccounts ≠ []) (hlo : 1 ≤ s.renewalCount)
    (hhi : s.renewalCount ≤ 20) (hjob : s2.activeRenewalJobId.isSome) :
    ((handleRenewal s st jobId now resp).state.activeRenewalJobId = none ∧
     (handleRenewal s st jobId now resp).storage.activeRenewalJobId = none ∧
     (handleRenewal s st jobId now resp).state.loading = false) ∧
    ((checkRenewalStatus s2 st2).1.activeRenewalJobId = none ∧
     (checkRenewalStatus s2 st2).1.loading = false ∧
     (checkRenewalStatus s2 st2).2.activeRenewalJobId = none) := by
  constructor
  · have h0 : ¬ s.selectedAccounts.length = 0 := by
      simpa [List.length_eq_zero] using hsel
    have h1 : ¬ (s.renewalCount < 1 ∨ s.renewalCount > 20) := by omega
    cases resp with
    | ok data => simp [handleRenewal, h0, h1, resetRenewalState]
    | error msg => simp [handleRenewal, h0, h1, resetRenewalState]
  · match hj : s2.activeRenewalJobId with
    | some j => simp [checkRenewalStatus, hj, ite_self]
    | none => simp [hj] at hjob

/-- Page state used by the C1 and C6 witnesses. -/
def c1state : RenewPageState :=
  { selectedAccounts := [1], renewalCount := 5, loading := false,
    results := [], totalRenewed := 0, activeRenewalJobId := none }

/-- Storage used by the C1 and C6 witnesses. -/
def c1storage : RenewStorage :=
  { activeRenewalJobId := none, renewalActivityLogs := none }

/-- Page state with a stored job marker, for the C1 witness. -/
def c1state2 : RenewPageState :=
  { selectedAccounts := [], renewalCount := 20, loading := true,
    results := [], totalRenewed := 0,
    activeRenewalJobId := some "renewal_1_abc" }

/-- C1 witness: the theorem applied to a concrete failing invocation and
a concrete stored marker. -/
theorem claim_C1_termination_clears_witness :
    ((handleRenewal c1state c1storage "j" 0 (.error "boom")).state.activeRenewalJobId = none ∧
     (handleRenewal c1state c1storage "j" 0 (.error "boom")).storage.activeRenewalJobId = none ∧
     (handleRenewal c1state c1storage "j" 0 (.error "boom")).state.loading = false) ∧
    ((checkRenewalStatus c1state2 c1storage).1.activeRenewalJobId = none ∧
     (checkRenewalStatus c1state2 c1storage).1.loading = false ∧
     (checkRenewalStatus c1state2 c1storage).2.activeRenewalJobId = none) :=
  claim_C1_termination_clears c1state c1storage "j" 0 (.error "boom")
    c1state2 c1storage (by decide) (by decide) (by decide) (by decide)

/-! ## Claim C6: client-side validation blocks the call -/

/-- C6: with an empty account selection, or a renewal count outside the
inclusive range 1..20, handleRenewal shows a blocking alert, issues no
network call, and leaves the state (results, totals, job marker, loading)
and the storage unchanged. -/
theorem claim_C6_validation_blocks (s : RenewPageState) (st : RenewStorage)
    (jobId : String) (now : Int) (resp : Except String RenewalResponse)
    (h : s.selectedAccounts = [] ∨ s.renewalCount < 1 ∨ s.renewalCount > 20) :
    (handleRenewal s st jobId now resp).state = s ∧
    (handleRenewal s st jobId now resp).storage = st ∧
    (handleRenewal s st jobId now resp).networkCalled = false ∧
    (handleRenewal s st jobId now resp).alerts ≠ [] := by
  rcases h with h | h
  · have h0 : s.selectedAccounts.length = 0 := by simp [h]
    unfold handleRenewal
    rw [if_pos h0]
    exact ⟨rfl, rfl, rfl, by simp⟩
  · by_cases h0 : s.selectedAccounts.length = 0
    · unfold handleRenewal
      rw [if_pos h0]
      exact ⟨rfl, rfl, rfl, by simp⟩
    · unfold handleRenewal
      rw [if_neg h0, if_pos h]
      exact ⟨rfl, rfl, rfl, by simp⟩

/-- Out-of-range page state for the C6 witness (renewal count 0, as
produced by `parseInt(e.target.value) || 0` on bad input). -/
def c6state : RenewPageState :=
  { selectedAccounts := [1, 2], renewalCount := 0, loading := false,
    results := [], totalRenewed := 0, activeRenewalJobId := none }

/-- C6 witness: the theorem applied to a concrete out-of-range count. -/
theorem claim_C6_validation_blocks_witness :
    (handleRenewal c6state c1storage "j" 0 (.ok c3scenario)).state = c6state ∧
    (handleRenewal c6state c1storage "j" 0 (.ok c3scenario)).storage = c1storage ∧
    (handleRenewal c6state c1storage "j" 0 (.ok c3scenario)).networkCalled = false ∧
    (handleRenewal c6state c1storage "j" 0 (.ok c3scenario)).alerts ≠ [] :=
  claim_C6_validation_blocks c6state c1storage "j" 0 (.ok c3scenario)
    (Or.inr (Or.inl (by decide)))

/-! ## Claim C2: 24-hour pruning on load -/

/-- C2: loading a stored activity log drops every entry more than 24
hours older than the load time, keeps (converted, fields unchanged)
every entry strictly within the last 24 hours, and recomputes the
displayed total as the sum of renewed_count over the retained entries
(missing renewed_count counted as 0). -/
theorem claim_C2_load_prunes (s : RenewPageState) (st : RenewStorage)
    (logs : List StoredLog) (now : Int)
    (hst : st.renewalActivityLogs = some (.valid logs)) :
    (∀ l ∈ logs, l.timestamp + h24ms < now →
        toResult l ∉ ((loadActivityNow s st now).1).results) ∧
    (∀ l ∈ logs, now - h24ms < l.timestamp →
        toResult l ∈ ((loadActivityNow s st now).1).results) ∧
    ((loadActivityNow s st now).1).totalRenewed
      = (((loadActivityNow s st now).1).results.map
          (fun r => r.renewed_count.getD 0)).sum := by
  simp only [loadActivityNow, hst]
  refine ⟨?_, ?_, ?_⟩
  · intro l hl hold hmem
    simp only [List.mem_map] at hmem
    rcases hmem with ⟨l2, hl2, heq⟩
    have hll : l2 = l := toResult_inj heq
    have h2 : now - h24ms < l.timestamp := by
      have h3 := (List.mem_filter.mp hl2).2
      rw [hll] at h3
      simpa using h3
    simp only [h24ms] at h2 hold
    omega
  · intro l hl hkeep
    exact List.mem_map_of_mem toResult
      (List.mem_filter.mpr ⟨hl, by simpa using hkeep⟩)
  · simp only [foldl_add_map, List.map_map, Nat.zero_add]
    rfl

/-- Retained (recent) entry for the C2 witness; with load time 10^8 ms
its timestamp is within the 24-hour window. -/
def c2new : StoredLog :=
  { account_id := 1, email := "a@x.com", renewed_count := some 4,
    available_count := 2, success := true, message := "ok",
    condition_met := "", timestamp := 99000000 }

/-- Expired entry for the C2 witness; more than 24 hours before the
load time 10^8 ms. -/
def c2old : StoredLog :=
  { account_id := 2, email := "b@x.com", renewed_count := some 9,
    available_count := 0, success := false, message := "old",
    condition_met := "", timestamp := 10000000 }

/-- Storage holding both C2 witness entries. -/
def c2storage : RenewStorage :=
  { activeRenewalJobId := none,
    renewalActivityLogs := some (.valid [c2new, c2old]) }

/-- C2 witness: the theorem applied at a concrete two-entry log, showing
the expired entry dropped and the recent one retained. -/
theorem claim_C2_load_prunes_witness :
    toResult c2old ∉ ((loadActivityNow c1state c2storage 100000000).1).results ∧
    toResult c2new ∈ ((loadActivityNow c1state c2storage 100000000).1).results :=
  ⟨(claim_C2_load_prunes c1state c2storage [c2new, c2old] 100000000 rfl).1
      c2old (by decide) (by decide),
   (claim_C2_load_prunes c1state c2storage [c2new, c2old] 100000000 rfl).2.1
      c2new (by decide) (by decide)⟩

/-! ## Claim C5: save / load round trip -/

/-- C5: persisting a non-empty result list (the save effect stamps every
entry with the save-time ISO string) and reloading it within the
24-hour window yields the same entries, each with its timestamp equal,
as a date value, to the stored ISO timestamp. -/
theorem claim_C5_roundtrip (s s2 : RenewPageState) (st : RenewStorage)
    (tSave tLoad : Int) (hne : s.results ≠ [])
    (hwin : tLoad - h24ms < tSave) :
    ((loadActivityNow s2 (saveActivityNow s st tSave) tLoad).1).results
      = s.results.map (fun r => { r with timestamp := some tSave }) := by
  have hlen : s.results.length > 0 := List.length_pos.mpr hne
  simp only [saveActivityNow, if_pos hlen, loadActivityNow]
  have hfilter : recentFilter tLoad (s.results.map (toStored tSave))
      = s.results.map (toStored tSave) := by
    apply List.filter_eq_self.mpr
    intro a ha
    rcases List.mem_map.mp ha with ⟨r, _, rfl⟩
    simpa [toStored] using hwin
  rw [hfilter]
  simp only [List.map_map]
  rfl

/-- Result list for the C5 witness (one entry, no prior timestamp). -/
def c5results : List RenewalResult :=
  [{ account_id := 1, email := "a@x.com", renewed_count := some 2,
     available_count := 1, success := true, message := "done",
     condition_met := "", timestamp := none }]

/-- Page state holding the C5 witness results. -/
def c5state : RenewPageState :=
  { selectedAccounts := [1], renewalCount := 3, loading := false,
    results := c5results, totalRenewed := 2, activeRenewalJobId := none }

/-- C5 witness: saving at time 1000 and reloading at time 2000
reproduces the entry with timestamp 1000. -/
theorem claim_C5_roundtrip_witness :
    ((loadActivityNow c1state (saveActivityNow c5state c1storage 1000) 2000).1).results
      = c5results.map (fun r => { r with timestamp := some 1000 }) :=
  claim_C5_roundtrip c5state c1state c1storage 1000 2000 (by decide) (by decide)

/-! ## Claim C10: the stored activity log, when present, is a non-empty
array -/

/-- C10: the Renewal page never leaves an empty list under the
'renewalActivityLogs' key: the save effect preserves the
key-exists-implies-non-empty-array invariant (it writes only for a
non-empty list), the corrupt-data recovery path and the clear action
remove the key, and handleRenewal and the job-marker recovery check do
not touch the key at all. -/
theorem claim_C10_logs_key_nonempty (s : RenewPageState) (st : RenewStorage)
    (now : Int) (jobId : String) (resp : Except String RenewalResponse) :
    (logsKeyInv st = true → logsKeyInv (saveActivityNow s st now) = true) ∧
    (logsKeyInv st = true → logsKeyInv ((loadActivityNow s st now).2) = true) ∧
    logsKeyInv ((clearActivityLogs s st).2) = true ∧
    (st.renewalActivityLogs = some .corrupt →
       ((loadActivityNow s st now).2).renewalActivityLogs = none) ∧
    (handleRenewal s st jobId now resp).storage.renewalActivityLogs
      = st.renewalActivityLogs ∧
    ((checkRenewalStatus s st).2).renewalActivityLogs
      = st.renewalActivityLogs := by
  refine ⟨?_, ?_, ?_, ?_, ?_, ?_⟩
  · intro hpre
    by_cases hlen : s.results.length > 0
    · have : s.results ≠ [] := by
        intro hnil
        rw [hnil] at hlen
        simp at hlen
      simp [saveActivityNow, hlen, logsKeyInv, List.isEmpty_iff,
        List.map_eq_nil_iff, this]
    · simpa [saveActivityNow, hlen] using hpre
  · intro hpre
    match hv : st.renewalActivityLogs with
    | none => simpa [loadActivityNow, hv] using hpre
    | some (.valid logs) => simpa [loadActivityNow, hv] using hpre
    | some .corrupt => simp [logsKeyInv, hv] at hpre
  · simp [clearActivityLogs, resetRenewalState, logsKeyInv]
  · intro hv
    simp [loadActivityNow, hv]
  · by_cases h0 : s.selectedAccounts.length = 0
    · simp [handleRenewal, h0]
    · by_cases h1 : s.renewalCount < 1 ∨ s.renewalCount > 20
      · simp [handleRenewal, h0, h1]
      · cases resp with
        | ok data => simp [handleRenewal, h0, h1, resetRenewalState]
        | error msg => simp [handleRenewal, h0, h1, resetRenewalState]
  · match hj : s.activeRenewalJobId with
    | none => simp [checkRenewalStatus, hj]
    | some j => simp [checkRenewalStatus, hj, ite_self]

/-- C10 witness: the preservation statements applied at a concrete
storage holding a non-empty stored log. -/
theorem claim_C10_logs_key_nonempty_witness :
    logsKeyInv (saveActivityNow c5state c2storage 1000) = true ∧
    logsKeyInv ((loadActivityNow c5state c2storage 1000).2) = true :=
  ⟨(claim_C10_logs_key_nonempty c5state c2storage 1000 "j" (.error "e")).1
      (by decide),
   (claim_C10_logs_key_nonempty c5state c2storage 1000 "j" (.error "e")).2.1
      (by decide)⟩

/-! ## Claim C7: image proxy responses -/

/-- C7: the image-proxy GET returns 400 "Missing image URL" when the url
parameter is absent; relays the upstream status with a plain-text body
when the upstream response is not ok; relays the upstream bytes with the
upstream content-type (defaulting to image/jpeg) when it is ok; and
returns a fixed 500 response on a fetch exception. -/
theorem claim_C7_image_proxy (u : String) (r : UpstreamResponse)
    (f : FetchOutcome) (hu : u ≠ "") :
    imageProxyGET none f
      = { status := 400, body := .text "Missing image URL",
          contentType := none } ∧
    (¬ (200 ≤ r.status ∧ r.status ≤ 299) →
       imageProxyGET (some u) (.ok r)
         = { status := r.status, body := .text "Failed to fetch image",
             contentType := none }) ∧
    ((200 ≤ r.status ∧ r.status ≤ 299) →
       imageProxyGET (some u) (.ok r)
         = { status := 200, body := .bytes r.body,
             contentType := some (r.contentType.getD "image/jpeg") }) ∧
    imageProxyGET (some u) .exn
      = { status := 500, body := .text "Failed to load image",
          contentType := none } := by
  refine ⟨rfl, ?_, ?_, by simp [imageProxyGET, hu]⟩
  · intro h
    have hok : responseOk r = false := by
      simp only [responseOk, Bool.and_eq_false_iff, decide_eq_false_iff_not]
      omega
    simp [imageProxyGET, hu, hok]
  · intro h
    have hok : responseOk r = true := by
      simp only [responseOk, Bool.and_eq_true, decide_eq_true_eq]
      exact h
    simp [imageProxyGET, hu, hok]

/-- Upstream 404 with no content-type, for the C7 witness. -/
def c7notFound : UpstreamResponse :=
  { status := 404, contentType := none, body := [] }

/-- Upstream 200 PNG, for the C7 witness. -/
def c7png : UpstreamResponse :=
  { status := 200, contentType := some "image/png", body := [137, 80] }

/-- C7 witness: the theorem applied at a concrete URL and concrete
upstream responses. -/
theorem claim_C7_image_proxy_witness :
    imageProxyGET (some "http://x/img.png") (.ok c7notFound)
      = { status := 404, body := .text "Failed to fetch image",
          contentType := none } ∧
    imageProxyGET (some "http://x/img.png") (.ok c7png)
      = { status := 200, body := .bytes [137, 80],
          contentType := some "image/png" } :=
  ⟨((claim_C7_image_proxy "http://x/img.png" c7notFound .exn
        (by decide)).2.1) (by decide),
   ((claim_C7_image_proxy "http://x/img.png" c7png .exn
        (by decide)).2.2.1) (by decide)⟩

/-! ## Claim C8: pasted-session JSON validation -/

/-- Import-modal state with a filename present, used for C8. -/
def c8base : ImportState :=
  { sessionData := "", filename := "test@gmail.com", loading := false,
    error := "", success := false }

/-- C8 counterexample: pasting un-parseable text ("\x7bbad json") does
set the inline "Invalid JSON format" error, but the submit control is
NOT disabled — its disabled condition checks only loading and blankness
of the two fields — refuting the claim that invalid JSON disables
submit. -/
theorem claim_C8_counterexample :
    (sessionTextareaOnChange "\x7bbad json" c8base).error
      = "Invalid JSON format. Please check your pasted data." ∧
    importSubmitDisabled (sessionTextareaOnChange "\x7bbad json" c8base)
      = false := by decide

/-- C8 (amended): pasting text that does not parse as JSON sets the
inline "Invalid JSON format" error but leaves the submit control enabled
(it is disabled only while loading or while a field is blank); in both
input paths no import network call is issued while the session data does
not parse as JSON, because handleSubmit re-validates and returns before
calling the API; pasting text that parses as JSON clears the error, and
submit is enabled once a non-blank filename is present. -/
theorem claim_C8_paste_validation (s s2 : ImportState) (value : String)
    (resp2 : Except String ImportDetails)
    (hval : isBlank value = false) :
    (parseJson value = none →
       (sessionTextareaOnChange value s).error
         = "Invalid JSON format. Please check your pasted data.") ∧
    ((parseJson value).isSome →
       (sessionTextareaOnChange value s).error = "") ∧
    (parseJson s2.sessionData = none →
       (importHandleSubmit s2 resp2).2 = false) ∧
    (s.loading = false → isBlank s.filename = false →
       importSubmitDisabled (sessionTextareaOnChange value s) = false) := by
  refine ⟨?_, ?_, ?_, ?_⟩
  · intro hp
    simp [sessionTextareaOnChange, hval, hp]
  · intro hp
    match hj : parseJson value with
    | some v => simp [sessionTextareaOnChange, hval, hj]
    | none => simp [hj] at hp
  · intro hp
    by_cases hb : isBlank s2.sessionData
    · simp [importHandleSubmit, hb]
    · by_cases hf : isBlank s2.filename
      · simp [importHandleSubmit, hb, hf]
      · simp [importHandleSubmit, hb, hf, hp]
  · intro hload hfile
    unfold importSubmitDisabled
    by_cases hp : (parseJson value).isSome
    · match hj : parseJson value with
      | some v =>
          simp [sessionTextareaOnChange, hval, hj, hload, hfile]
      | none => simp [hj] at hp
    · match hj : parseJson value with
      | some v => simp [hj] at hp
      | none =>
          simp [sessionTextareaOnChange, hval, hj, hload, hfile]

/-- Import-modal state holding un-parseable pasted data, for the C8
witness. -/
def c8badState : ImportState :=
  { sessionData := "\x7bbad json", filename := "test@gmail.com",
    loading := false, error := "", success := false }

/-- C8 witness: the amended theorem applied at the concrete paste inputs
"\x7bbad json" (error set, no network call) and the cookie-export sample
(error cleared, submit enabled). -/
theorem claim_C8_paste_validation_witness :
    (sessionTextareaOnChange "\x7bbad json" c8base).error
      = "Invalid JSON format. Please check your pasted data." ∧
    (importHandleSubmit c8badState (.error "e")).2 = false ∧
    (sessionTextareaOnChange "[\x7b\"name\":\"c_user\",\"value\":\"x\"\x7d]"
        c8base).error = "" ∧
    importSubmitDisabled
        (sessionTextareaOnChange
          "[\x7b\"name\":\"c_user\",\"value\":\"x\"\x7d]" c8base)
      = false :=
  ⟨(claim_C8_paste_validation c8base c8badState "\x7bbad json"
      (.error "e") (by decide)).1 rfl,
   (claim_C8_paste_validation c8base c8badState "\x7bbad json"
      (.error "e") (by decide)).2.2.1 rfl,
   (claim_C8_paste_validation c8base c8badState
      "[\x7b\"name\":\"c_user\",\"value\":\"x\"\x7d]"
      (.error "e") (by decide)).2.1 (by decide),
   (claim_C8_paste_validation c8base c8badState
      "[\x7b\"name\":\"c_user\",\"value\":\"x\"\x7d]"
      (.error "e") (by decide)).2.2.2 (by decide) (by decide)⟩

/-! ## Claim C9: bulk upload success and failure handling -/

/-- C9: with a selected text file and a non-empty account selection, a
successful upload resets the text file, image files and selection,
invokes the success callback, records the success in the result panel,
and schedules the modal close after 2000 ms; a failed upload surfaces
the error message in the result panel and a toast, schedules no close,
does not invoke the callback, and leaves the text file, image files and
selection unchanged. -/
theorem claim_C9_bulk_submit (s : BulkState) (data : UploadData)
    (msg fname : String)
    (hfile : s.txtFile = some fname) (hsel : s.selectedAccounts ≠ [])
    (hmsg : msg ≠ "") :
    ((bulkHandleSubmit s (.ok data)).1.txtFile = none ∧
     (bulkHandleSubmit s (.ok data)).1.imageFiles = [] ∧
     (bulkHandleSubmit s (.ok data)).1.selectedAccounts = [] ∧
     (bulkHandleSubmit s (.ok data)).2.onSuccessCalled = true ∧
     (bulkHandleSubmit s (.ok data)).2.closeDelayMs = some 2000 ∧
     (bulkHandleSubmit s (.ok data)).1.uploadResult
       = some { success := true, message := data.message,
                stats := data.stats, errors := data.errors,
                additional_errors := data.additional_errors } ∧
     (bulkHandleSubmit s (.ok data)).2.toasts
       = [("success", data.message)]) ∧
    ((bulkHandleSubmit s (.error msg)).1.uploadResult
       = some { success := false, message := msg, stats := none,
                errors := none, additional_errors := none } ∧
     (bulkHandleSubmit s (.error msg)).2.toasts = [("error", msg)] ∧
     (bulkHandleSubmit s (.error msg)).1.txtFile = s.txtFile ∧
     (bulkHandleSubmit s (.error msg)).1.imageFiles = s.imageFiles ∧
     (bulkHandleSubmit s (.error msg)).1.selectedAccounts
       = s.selectedAccounts ∧
     (bulkHandleSubmit s (.error msg)).2.closeDelayMs = none ∧
     (bulkHandleSubmit s (.error msg)).2.onSuccessCalled = false) := by
  have hlen : ¬ s.selectedAccounts.length = 0 := by
    simpa [List.length_eq_zero] using hsel
  constructor
  · simp [bulkHandleSubmit, hfile, hlen]
  · simp [bulkHandleSubmit, hfile, hlen, hmsg]

/-- Bulk-modal state with a chosen file, images and selection, for the
C9 witness. -/
def c9state : BulkState :=
  { accounts := [{ id := 1, email := "a@x.com", session_exists := true }],
    selectedAccounts := [1], txtFile := some "posts.txt",
    imageFiles := ["a.png"], loading := false, uploadResult := none }

/-- Upload response body for the C9 witness. -/
def c9data : UploadData :=
  { message := "Created 2 posts", stats := none, errors := none,
    additional_errors := none }

/-- C9 witness: the theorem applied at a concrete state, success
response and failure message. -/
theorem claim_C9_bulk_submit_witness :
    (bulkHandleSubmit c9state (.ok c9data)).1.txtFile = none ∧
    (bulkHandleSubmit c9state (.ok c9data)).2.closeDelayMs = some 2000 ∧
    (bulkHandleSubmit c9state (.error "Upload failed")).1.txtFile
      = c9state.txtFile ∧
    (bulkHandleSubmit c9state (.error "Upload failed")).2.toasts
      = [("error", "Upload failed")] :=
  ⟨(claim_C9_bulk_submit c9state c9data "Upload failed" "posts.txt"
      rfl (by decide) (by decide)).1.1,
   (claim_C9_bulk_submit c9state c9data "Upload failed" "posts.txt"
      rfl (by decide) (by decide)).1.2.2.2.2.1,
   (claim_C9_bulk_submit c9state c9data "Upload failed" "posts.txt"
      rfl (by decide) (by decide)).2.2.2.1,
   (claim_C9_bulk_submit c9state c9data "Upload failed" "posts.txt"
      rfl (by decide) (by decide)).2.2.1⟩

end FbMarketplace
